import Mathlib

/-!
Verification of the collaborative text backend (server session store,
position mapper, fan-out filter, presence registry, persistence gateway)
against its natural-language specification.

Strings carrying document content are modelled as `List Char` (sequences of
Unicode scalar values); byte offsets are reconstructed from the UTF-8
encoding width of each character, mirroring how the server manipulates
byte positions of a valid UTF-8 `String`.
-/

namespace Collab

/-- UTF-8 byte width of a character, as in the UTF-8 encoding rules
(1 byte below U+0080, 2 below U+0800, 3 below U+10000, otherwise 4). -/
def charBytes (c : Char) : Nat :=
  if c.toNat < 0x80 then 1
  else if c.toNat < 0x800 then 2
  else if c.toNat < 0x10000 then 3
  else 4

/-- Total UTF-8 byte length of a string (`str.len()` in the source). -/
def utf8Len (s : List Char) : Nat := (s.map charBytes).sum

/-- `str::is_char_boundary(pos)`: `pos` is 0, the total length, or the first
byte of some character; positions strictly inside a character's encoding,
or beyond the end, are not boundaries. -/
def isCharBoundary : List Char → Nat → Bool
  | [], pos => pos == 0
  | c :: rest, pos =>
      if pos = 0 then true
      else if charBytes c ≤ pos then isCharBoundary rest (pos - charBytes c)
      else false

/-- The `while pos > 0 && !text.is_char_boundary(pos) { pos -= 1 }` loop of
`clamp_to_boundary` in src/server.rs: step backwards until a boundary. -/
def clampLoop (s : List Char) : Nat → Nat
  | 0 => 0
  | p + 1 => if isCharBoundary s (p + 1) then p + 1 else clampLoop s p

/-- `clamp_to_boundary` (src/server.rs): clamp to the string's byte length,
then walk backwards to the nearest character boundary. -/
def clamp_to_boundary (s : List Char) (pos : Nat) : Nat :=
  clampLoop s (min pos (utf8Len s))

/-- Number of characters in the prefix of `s` of byte length `b`
(`text[..b].chars().count()` for a boundary offset `b`). -/
def charsBefore : List Char → Nat → Nat
  | [], _ => 0
  | c :: rest, b => if charBytes c ≤ b then charsBefore rest (b - charBytes c) + 1 else 0

/-- `byte_to_char_index` (src/server.rs): clamp the byte offset to a
boundary, then count the characters preceding it. -/
def byte_to_char_index (s : List Char) (bytePos : Nat) : Nat :=
  charsBefore s (clamp_to_boundary s bytePos)

/-- Drop the prefix of `s` of byte length `b` (the suffix `text[b..]`
for a boundary offset `b`). -/
def dropBytes : List Char → Nat → List Char
  | [], _ => []
  | c :: rest, b => if charBytes c ≤ b then dropBytes rest (b - charBytes c) else c :: rest

/-- `current[start..stop].chars().count()` for boundary offsets
`start ≤ stop`. -/
def sliceCharCount (s : List Char) (start stop : Nat) : Nat :=
  charsBefore (dropBytes s start) (stop - start)

/-- Modelled from the spec: the content handle (`TextDoc` of the external
`mdcs_sdk` crate) is out of scope and specified only as an opaque
collaborator exposing `new(doc_id, replica_id)`, `insert(char_index, text)`,
`delete(char_index, char_count)` and `get_text()`; character-indexed, not
byte-indexed. We model it as the sequence of characters it holds. -/
structure TextDoc where
  text : List Char
deriving DecidableEq, Repr

/-- `TextDoc::new(doc_id, replica_id)`: a fresh empty document (the ids do
not affect the text content). -/
def TextDoc.new (_docId _replicaId : String) : TextDoc := ⟨[]⟩

/-- `TextDoc::insert(char_index, text)`: splice `t` in before character
index `i`. -/
def TextDoc.insert (d : TextDoc) (i : Nat) (t : List Char) : TextDoc :=
  ⟨d.text.take i ++ t ++ d.text.drop i⟩

/-- `TextDoc::delete(char_index, char_count)`: remove `n` characters
starting at character index `i`. -/
def TextDoc.delete (d : TextDoc) (i n : Nat) : TextDoc :=
  ⟨d.text.take i ++ d.text.drop (i + n)⟩

/-- `TextDoc::get_text()`. -/
def TextDoc.get_text (d : TextDoc) : List Char := d.text

/-- `Op` (src/protocol.rs): the three wire operations. -/
inductive Op where
  | Insert (pos : Nat) (text : List Char)
  | Delete (pos : Nat) (len : Nat)
  | Cursor (pos : Nat)
deriving DecidableEq, Repr

/-- `DocState` (src/server.rs): live per-(room,doc) state. The `cursors`
hash map (user id → byte position) is modelled as an association list with
unique keys. -/
structure DocState where
  doc : TextDoc
  version : Nat
  cursors : List (Nat × Nat)
deriving DecidableEq, Repr

/-- `HashMap::insert` on an association list: replace the value of an
existing key, otherwise append the new binding. -/
def mapInsert {κ α : Type} [BEq κ] : List (κ × α) → κ → α → List (κ × α)
  | [], k, v => [(k, v)]
  | (k', v') :: rest, k, v =>
      if k' == k then (k, v) :: rest else (k', v') :: mapInsert rest k v

/-- `apply_op_to_doc` (src/server.rs): dispatch one operation against a
document state. Insert converts the byte position to a character index and
splices; Delete clamps both ends of the byte range, returning early on an
empty document or an empty clamped range; Cursor records the clamped
position in the cursor table. The version field is untouched here (it is
bumped by the caller `handle_op`). -/
def apply_op_to_doc (ds : DocState) (user_id : Nat) (op : Op) : DocState :=
  match op with
  | .Insert pos text =>
      let current := ds.doc.get_text
      let char_pos := byte_to_char_index current pos
      { ds with doc := ds.doc.insert char_pos text }
  | .Delete pos len =>
      let current := ds.doc.get_text
      if current.isEmpty then ds
      else
        let start := clamp_to_boundary current pos
        let stop := clamp_to_boundary current (start + len)
        if start ≥ stop then ds
        else
          let char_start := charsBefore current start
          let char_len := sliceCharCount current start stop
          if char_len > 0 then { ds with doc := ds.doc.delete char_start char_len }
          else ds
  | .Cursor pos =>
      let current := ds.doc.get_text
      let clamped := clamp_to_boundary current pos
      { ds with cursors := mapInsert ds.cursors user_id clamped }

/-- `UserInfo` (src/protocol.rs). -/
structure UserInfo where
  id : Nat
  name : String
deriving DecidableEq, Repr

/-- `UserState` (src/server.rs). -/
structure UserState where
  id : Nat
  name : String
  room : String
  doc : String
deriving DecidableEq, Repr

/-- `ServerMessage` (src/protocol.rs). -/
inductive ServerMessage where
  | Welcome (user_id : Nat) (room doc : String) (text : List Char)
      (version : Nat) (users : List UserInfo)
  | Applied (user_id : Nat) (room doc : String) (op : Op) (version : Nat)
  | Presence (room doc : String) (users : List UserInfo)
  | SyncResponse (room doc : String) (text : List Char) (version : Nat)
  | Error (message : String)
deriving DecidableEq, Repr

/-- `SharedState` (src/server.rs). Both hash maps are modelled as
association lists with unique keys; the order of `users` stands for the
map's (unspecified) iteration order. The `storage` field performs file
I/O in the source; its `load_text` is modelled as an oracle parameter of
`handle_op` and `save_text` has no effect on the in-memory state. -/
structure SharedState where
  next_user_id : Nat
  users : List (Nat × UserState)
  docs : List (String × DocState)
deriving DecidableEq, Repr

/-- `doc_key` (src/server.rs): `format!("{}/{}", room, doc)`. -/
def doc_key (room doc : String) : String := room ++ "/" ++ doc

/-- `users_in_doc` (src/server.rs): iterate the user map's values, keep
those whose room and doc match, and project to `{id, name}`. No sorting
is applied; the output order is the map's iteration order. -/
def users_in_doc (users : List (Nat × UserState)) (room doc : String) :
    List UserInfo :=
  ((users.map Prod.snd).filter (fun u => u.room == room && u.doc == doc)).map
    (fun u => { id := u.id, name := u.name })

/-- `handle_op` (src/server.rs). Returns the updated shared state and the
list of broadcast messages sent. If the connection has no user id, room or
doc (not yet joined), nothing happens. Otherwise the session is created if
absent (seeded from storage via the `load` oracle), the op is applied, the
version is bumped by 1 unconditionally, and one `Applied` event is
broadcast. The in-place `get_mut` mutation of the source is modelled as a
functional re-insert of the updated `DocState`; the write-through
`save_text` call has no in-memory effect and is omitted. -/
def handle_op (load : String → String → List Char) (st : SharedState)
    (current_user_id : Option Nat) (room doc : Option String) (op : Op) :
    SharedState × List ServerMessage :=
  match current_user_id, room, doc with
  | some user_id, some room, some doc =>
      let key := doc_key room doc
      let ds0 : DocState :=
        match st.docs.lookup key with
        | some ds => ds
        | none =>
            let text := load room doc
            let newDoc := TextDoc.new key "server"
            let newDoc := if text.isEmpty then newDoc else newDoc.insert 0 text
            { doc := newDoc, version := 0, cursors := [] }
      let ds1 := apply_op_to_doc ds0 user_id op
      let ds2 := { ds1 with version := ds1.version + 1 }
      ({ st with docs := mapInsert st.docs key ds2 },
       [ServerMessage.Applied user_id room doc op ds2.version])
  | _, _, _ => (st, [])

/-- `should_forward` (src/server.rs): with no current room or doc the
filter rejects everything; otherwise Welcome and Error pass, and Applied,
Presence and SyncResponse pass exactly when their (room, doc) matches. -/
def should_forward (msg : ServerMessage) (room doc : Option String) : Bool :=
  match room, doc with
  | some room, some doc =>
      match msg with
      | .Welcome _ _ _ _ _ _ => true
      | .Error _ => true
      | .Applied _ r d _ _ => r == room && d == doc
      | .Presence r d _ => r == room && d == doc
      | .SyncResponse r d _ _ => r == room && d == doc
  | _, _ => false

/-- The disconnect epilogue of `handle_connection` (src/server.rs, lines
219 to 226): if the connection had joined, remove the user from the user
map (modelled as filtering out its unique key) and broadcast a Presence
recomputed for its room and doc. The `docs` map is not touched. -/
def handle_disconnect (st : SharedState) (current_user_id : Option Nat)
    (current_room current_doc : Option String) :
    SharedState × List ServerMessage :=
  match current_user_id with
  | none => (st, [])
  | some user_id =>
      let users1 := st.users.filter (fun p => p.1 != user_id)
      let st1 := { st with users := users1 }
      match current_room, current_doc with
      | some room, some doc =>
          (st1, [ServerMessage.Presence room doc (users_in_doc users1 room doc)])
      | _, _ => (st1, [])

/-- `is_ascii_alphanumeric` of Rust `char`: ASCII digit or letter. -/
def isAsciiAlphanumeric (c : Char) : Bool :=
  (0x30 ≤ c.toNat && c.toNat ≤ 0x39) ||
  (0x41 ≤ c.toNat && c.toNat ≤ 0x5A) ||
  (0x61 ≤ c.toNat && c.toNat ≤ 0x7A)

/-- `sanitize_component` (src/storage.rs): keep ASCII alphanumerics and
the characters -, _ and . unchanged, replace every other character by _,
and fall back to "untitled" for an empty result. -/
def sanitize_component (input : List Char) : List Char :=
  let out := input.map (fun ch =>
    if isAsciiAlphanumeric ch || ch == '-' || ch == '_' || ch == '.' then ch
    else '_')
  if out.isEmpty then "untitled".toList else out

/-- `Storage::doc_path` (src/storage.rs): the path
`data_dir/sanitize(room)/sanitize(doc)`, modelled as its list of
components. -/
def doc_path (data_dir : List (List Char)) (room doc : List Char) :
    List (List Char) :=
  data_dir ++ [sanitize_component room, sanitize_component doc]

/-- Version of the session under `key`, when present. -/
def docVersion (st : SharedState) (key : String) : Option Nat :=
  (st.docs.lookup key).map DocState.version

/-- Text of the session under `key`, when present. -/
def docText (st : SharedState) (key : String) : Option (List Char) :=
  (st.docs.lookup key).map (fun d => d.doc.get_text)

/-! ## Helper lemmas -/

theorem isCharBoundary_zero (s : List Char) : isCharBoundary s 0 = true := by
  cases s <;> simp [isCharBoundary]

theorem clampLoop_le (s : List Char) (p : Nat) : clampLoop s p ≤ p := by
  induction p with
  | zero => exact Nat.le_refl 0
  | succ q ih =>
      unfold clampLoop
      split
      · exact Nat.le_refl _
      · exact Nat.le_trans ih (Nat.le_succ q)

theorem clampLoop_isBoundary (s : List Char) (p : Nat) :
    isCharBoundary s (clampLoop s p) = true := by
  induction p with
  | zero => exact isCharBoundary_zero s
  | succ q ih =>
      unfold clampLoop
      split
      · assumption
      · exact ih

theorem clampLoop_eq_of_boundary (s : List Char) (p : Nat)
    (h : isCharBoundary s p = true) : clampLoop s p = p := by
  cases p with
  | zero => rfl
  | succ q => simp [clampLoop, h]

theorem lookup_mapInsert_self {κ α : Type} [BEq κ] [LawfulBEq κ]
    (m : List (κ × α)) (k : κ) (v : α) :
    (mapInsert m k v).lookup k = some v := by
  induction m with
  | nil => simp [mapInsert, List.lookup]
  | cons hd tl ih =>
      obtain ⟨k', v'⟩ := hd
      by_cases h : k' = k
      · simp [mapInsert, h, List.lookup]
      · have hne : (k == k') = false := by
          simp only [beq_eq_false_iff_ne, ne_eq]
          exact fun hk => h hk.symm
        simp [mapInsert, h, List.lookup, hne, ih]

theorem apply_op_version (ds : DocState) (uid : Nat) (op : Op) :
    (apply_op_to_doc ds uid op).version = ds.version := by
  cases op <;> (simp only [apply_op_to_doc]; repeat first | split | rfl)

/-! ## Claim theorems -/

/-- C3: for every UTF-8 string `s` and byte offset `p`, `clamp_to_boundary`
returns an offset that is at most the byte length of `s`, lies on a
character boundary of `s`, and is idempotent. -/
theorem C3_clamp_to_boundary_spec (s : List Char) (p : Nat) :
    clamp_to_boundary s p ≤ utf8Len s ∧
    isCharBoundary s (clamp_to_boundary s p) = true ∧
    clamp_to_boundary s (clamp_to_boundary s p) = clamp_to_boundary s p := by
  have hle : clamp_to_boundary s p ≤ utf8Len s :=
    Nat.le_trans (clampLoop_le s _) (Nat.min_le_right p (utf8Len s))
  have hbd : isCharBoundary s (clamp_to_boundary s p) = true :=
    clampLoop_isBoundary s _
  refine ⟨hle, hbd, ?_⟩
  calc clamp_to_boundary s (clamp_to_boundary s p)
      = clampLoop s (min (clamp_to_boundary s p) (utf8Len s)) := rfl
    _ = clampLoop s (clamp_to_boundary s p) := by rw [Nat.min_eq_left hle]
    _ = clamp_to_boundary s p := clampLoop_eq_of_boundary s _ hbd

/-- C1 (counterexample): on a joined session at version 0, applying a
Cursor operation raises the version to 1, so a Cursor operation does not
leave the version unchanged. -/
theorem C1_cursor_bumps_version_counterexample :
    docVersion ⟨2, [], [("r/d", ⟨⟨['a']⟩, 0, []⟩)]⟩ "r/d" = some 0 ∧
    docVersion (handle_op (fun _ _ => []) ⟨2, [], [("r/d", ⟨⟨['a']⟩, 0, []⟩)]⟩
        (some 1) (some "r") (some "d") (Op.Cursor 0)).1 "r/d" = some 1 := by
  decide

/-- C1 (amended): the version counter increases by exactly 1 for every
successfully applied operation of any kind — Insert, Delete and Cursor
alike — because `handle_op` bumps the version unconditionally after
`apply_op_to_doc`. -/
theorem C1_version_bumps_on_every_op (load : String → String → List Char)
    (st : SharedState) (uid : Nat) (room doc : String) (op : Op) :
    docVersion (handle_op load st (some uid) (some room) (some doc) op).1
        (doc_key room doc)
      = some ((docVersion st (doc_key room doc)).getD 0 + 1) := by
  unfold handle_op docVersion
  cases h : st.docs.lookup (doc_key room doc) <;>
    simp [h, lookup_mapInsert_self, apply_op_version]

/-- When the clamped byte range of a Delete is empty, `apply_op_to_doc`
returns the document state unchanged. -/
theorem apply_op_delete_empty_range (ds : DocState) (uid pos len : Nat)
    (h : clamp_to_boundary ds.doc.get_text
           (clamp_to_boundary ds.doc.get_text pos + len)
         ≤ clamp_to_boundary ds.doc.get_text pos) :
    apply_op_to_doc ds uid (Op.Delete pos len) = ds := by
  simp only [apply_op_to_doc]
  split
  · rfl
  · rfl

/-- C2 (counterexample): a Delete whose clamped range is empty (content
"ab", pos 5, len 3) leaves the content unchanged but still raises the
version from 0 to 1, so it does not leave the version unchanged. -/
theorem C2_empty_delete_bumps_version_counterexample :
    docVersion ⟨2, [], [("r/d", ⟨⟨['a', 'b']⟩, 0, []⟩)]⟩ "r/d" = some 0 ∧
    docText (handle_op (fun _ _ => []) ⟨2, [], [("r/d", ⟨⟨['a', 'b']⟩, 0, []⟩)]⟩
        (some 1) (some "r") (some "d") (Op.Delete 5 3)).1 "r/d" = some ['a', 'b'] ∧
    docVersion (handle_op (fun _ _ => []) ⟨2, [], [("r/d", ⟨⟨['a', 'b']⟩, 0, []⟩)]⟩
        (some 1) (some "r") (some "d") (Op.Delete 5 3)).1 "r/d" = some 1 := by
  decide

/-- C2 (amended): a Delete whose clamped byte range is empty leaves the
document content unchanged, but the version counter still increases by 1,
because the bump in `handle_op` is unconditional. -/
theorem C2_empty_delete_content_frame (load : String → String → List Char)
    (st : SharedState) (uid : Nat) (room doc : String) (pos len : Nat)
    (ds : DocState)
    (hds : st.docs.lookup (doc_key room doc) = some ds)
    (h : clamp_to_boundary ds.doc.get_text
           (clamp_to_boundary ds.doc.get_text pos + len)
         ≤ clamp_to_boundary ds.doc.get_text pos) :
    docText (handle_op load st (some uid) (some room) (some doc)
        (Op.Delete pos len)).1 (doc_key room doc) = some ds.doc.get_text ∧
    docVersion (handle_op load st (some uid) (some room) (some doc)
        (Op.Delete pos len)).1 (doc_key room doc) = some (ds.version + 1) := by
  unfold handle_op docText docVersion
  simp [hds, lookup_mapInsert_self, apply_op_delete_empty_range ds uid pos len h]

/-- C2 (witness): the amended statement instantiated on content "ab" with
a Delete at pos 5, len 3, whose clamped range is empty. -/
theorem C2_empty_delete_content_frame_witness :
    docText (handle_op (fun _ _ => []) ⟨2, [], [("r/d", ⟨⟨['a', 'b']⟩, 0, []⟩)]⟩
        (some 1) (some "r") (some "d") (Op.Delete 5 3)).1 (doc_key "r" "d")
      = some (['a', 'b'] : List Char) ∧
    docVersion (handle_op (fun _ _ => []) ⟨2, [], [("r/d", ⟨⟨['a', 'b']⟩, 0, []⟩)]⟩
        (some 1) (some "r") (some "d") (Op.Delete 5 3)).1 (doc_key "r" "d")
      = some 1 :=
  C2_empty_delete_content_frame (fun _ _ => [])
    ⟨2, [], [("r/d", ⟨⟨['a', 'b']⟩, 0, []⟩)]⟩ 1 "r" "d" 5 3
    ⟨⟨['a', 'b']⟩, 0, []⟩ (by decide) (by decide)

/-- C4 (counterexample): with the user map in an iteration order that
lists user 2 before user 1 (both joined to room "r", doc "d"),
`users_in_doc` returns ids [2, 1], which is not sorted ascending; the
source never sorts, so the output order is the hash map's unspecified
iteration order. -/
theorem C4_members_not_sorted_counterexample :
    (users_in_doc [(2, ⟨2, "b", "r", "d"⟩), (1, ⟨1, "a", "r", "d"⟩)] "r" "d").map
        UserInfo.id = [2, 1] ∧
    ¬ List.Sorted (· ≤ ·)
        ((users_in_doc [(2, ⟨2, "b", "r", "d"⟩), (1, ⟨1, "a", "r", "d"⟩)] "r" "d").map
          UserInfo.id) := by
  constructor
  · decide
  · decide

/-- C4 (amended): the membership list contains exactly the users currently
joined to the given room and doc (each contributing its {id, name}), in
the user map's iteration order; no ordering by user id is guaranteed. -/
theorem C4_members_exact (users : List (Nat × UserState)) (room doc : String)
    (u : UserInfo) :
    u ∈ users_in_doc users room doc ↔
      ∃ us : UserState, us ∈ users.map Prod.snd ∧ us.room = room ∧
        us.doc = doc ∧ u = UserInfo.mk us.id us.name := by
  simp only [users_in_doc, List.mem_map, List.mem_filter, Bool.and_eq_true,
    beq_iff_eq]
  constructor
  · rintro ⟨us, ⟨hmem, hroom, hdoc⟩, rfl⟩
    exact ⟨us, hmem, hroom, hdoc, rfl⟩
  · rintro ⟨us, hmem, hroom, hdoc, rfl⟩
    exact ⟨us, ⟨hmem, hroom, hdoc⟩, rfl⟩

/-- C5 (counterexample): user 1 has a cursor entry at position 0 in the
session "r/d"; after the disconnect epilogue runs for user 1, the entry is
still present in the document's cursor table (it is not removed). -/
theorem C5_cursor_survives_disconnect_counterexample :
    (match (handle_disconnect ⟨2, [(1, ⟨1, "a", "r", "d"⟩)],
        [("r/d", ⟨⟨['a']⟩, 1, [(1, 0)]⟩)]⟩ (some 1) (some "r")
        (some "d")).1.docs.lookup "r/d" with
      | some ds => ds.cursors.lookup 1
      | none => none) = some 0 := by
  decide

/-- C5 (amended): applying a user's Cursor operation records that user's
clamped position in the document's cursor table, but disconnecting does
not remove it: the disconnect epilogue only removes the user from the
user registry and leaves the `docs` map (hence every cursor table)
untouched. -/
theorem C5_cursor_added_not_removed (ds : DocState) (uid pos : Nat)
    (st : SharedState) (cu : Option Nat) (cr cd : Option String) :
    (apply_op_to_doc ds uid (Op.Cursor pos)).cursors.lookup uid
      = some (clamp_to_boundary ds.doc.get_text pos) ∧
    (handle_disconnect st cu cr cd).1.docs = st.docs := by
  constructor
  · simp only [apply_op_to_doc]
    exact lookup_mapInsert_self ds.cursors uid _
  · cases cu with
    | none => rfl
    | some uid' => cases cr <;> cases cd <;> rfl

/-- C6 (counterexample): an Insert of "a" at position 0 into an empty
document yields content "a", not the empty string, so an Insert applied
to an empty document is not a no-op. -/
theorem C6_insert_on_empty_not_noop_counterexample :
    (apply_op_to_doc ⟨⟨[]⟩, 0, []⟩ 1 (Op.Insert 0 ['a'])).doc.get_text = ['a'] ∧
    (['a'] : List Char) ≠ [] := by
  decide

/-- C6 (amended): on an empty document a Delete is a no-op (content stays
empty), while an Insert splices its text in at the start; both are total,
defined outcomes rather than errors. -/
theorem C6_ops_on_empty_doc (ds : DocState) (uid pos len : Nat)
    (t : List Char) (h : ds.doc.get_text = []) :
    (apply_op_to_doc ds uid (Op.Delete pos len)).doc.get_text = [] ∧
    (apply_op_to_doc ds uid (Op.Insert pos t)).doc.get_text = t := by
  have hempty : ds.doc.get_text.isEmpty = true := by
    rw [h]; rfl
  constructor
  · simp only [apply_op_to_doc, hempty, if_true]
    exact h
  · simp only [apply_op_to_doc, TextDoc.insert, TextDoc.get_text] at h ⊢
    rw [h]
    simp

/-- C6 (witness): the amended statement instantiated on the empty
document with uid 1, Delete at pos 3 len 2, and Insert of "a" at pos 3. -/
theorem C6_ops_on_empty_doc_witness :
    (apply_op_to_doc ⟨⟨[]⟩, 0, []⟩ 1 (Op.Delete 3 2)).doc.get_text = [] ∧
    (apply_op_to_doc ⟨⟨[]⟩, 0, []⟩ 1 (Op.Insert 3 ['a'])).doc.get_text = ['a'] :=
  C6_ops_on_empty_doc ⟨⟨[]⟩, 0, []⟩ 1 3 2 ['a'] (by decide)

/-- C7: an operation handled before Join (no user id, room or doc
assigned) leaves the shared state unchanged and broadcasts nothing; the
handler is total, so it cannot crash. -/
theorem C7_op_before_join_noop (load : String → String → List Char)
    (st : SharedState) (op : Op) :
    handle_op load st none none none op = (st, []) := rfl

/-- C8: for a joined connection with room R and doc D, the fan-out filter
accepts an Applied, Presence or SyncResponse event exactly when the
event's (room, doc) equals (R, D); the handler forwards an event to its
outbound writer exactly when this filter accepts it. -/
theorem C8_forward_iff_session_matches (R D r d : String) (uid ver : Nat)
    (op : Op) (us : List UserInfo) (t : List Char) :
    (should_forward (.Applied uid r d op ver) (some R) (some D) = true
        ↔ (r = R ∧ d = D)) ∧
    (should_forward (.Presence r d us) (some R) (some D) = true
        ↔ (r = R ∧ d = D)) ∧
    (should_forward (.SyncResponse r d t ver) (some R) (some D) = true
        ↔ (r = R ∧ d = D)) := by
  simp [should_forward]

/-- C9: the sanitizer passes ".." through unchanged (every '.' is an
allowed character), so `doc_path` for room ".." contains a ".."
component and the resulting path escapes the data directory. -/
theorem C9_sanitize_passes_dotdot :
    sanitize_component ['.', '.'] = ['.', '.'] ∧
    ['.', '.'] ∈ doc_path [['d', 'a', 't', 'a']] ['.', '.'] ['x'] := by
  decide

/-- C10: with no current room or no current doc (the connection has not
joined), the fan-out filter rejects every event, of every kind. -/
theorem C10_unjoined_forwards_nothing (msg : ServerMessage)
    (room doc : Option String) :
    should_forward msg none doc = false ∧
    should_forward msg room none = false := by
  constructor
  · cases doc <;> rfl
  · cases room <;> rfl

end Collab
